import Mathlib

/-!
Verification of the OpenEdge native bridge
(`src/app/src/main/cpp/edge_detection.cpp`,
`Java_com_openedge_processing_EdgeDetection_nativeProcessFrame`).

The bridge marshals two JNI arrays, runs an OpenCV pipeline
(NV21→BGR, BGR→GRAY, GaussianBlur 5×5 σ=1.5, Canny 50/150, GRAY2RGBA),
and re-encodes the edge mask into a caller-supplied 32-bit pixel buffer.

OpenCV itself is an external library; its numeric internals are out of
scope for this repository.  The pipeline stages are therefore modelled as
an abstract record of (deterministic, possibly failing) functions
(`CvLib`), so that the theorems below quantify over every possible
library behaviour where the claim allows it.  The one library step whose
concrete encoding matters to the bridge's own loop — `COLOR_GRAY2RGBA`,
whose output words the loop reinterprets as signed 32-bit integers — is
modelled concretely from its documented behaviour: a gray byte `g` maps
to the four channel bytes `(R,G,B,A) = (g,g,g,255)`, laid out in memory
in that order and read back as one little-endian 32-bit word (Android
targets are little-endian).
-/

namespace OpenEdge

/-- Signed reinterpretation of a 32-bit word, as done by the C++ loop
when it reads `rgbaMat.data` through an `int*` pointer. -/
def toSigned32 (v : Nat) : Int :=
  if v < 2 ^ 31 then (v : Int) else (v : Int) - 2 ^ 32

/-- Little-endian packing of four channel bytes into the 32-bit word a
C `int*` read observes (byte 0 is the lowest-addressed channel). -/
def packLE (b0 b1 b2 b3 : Nat) : Nat :=
  b0 % 256 + (b1 % 256) * 2 ^ 8 + (b2 % 256) * 2 ^ 16 + (b3 % 256) * 2 ^ 24

/-- OpenCV `COLOR_GRAY2RGBA` on an 8-bit image: gray value `g` becomes
channel bytes `(g, g, g, 255)`; this is the 32-bit word the loop reads
for that pixel. -/
def gray2rgbaWord (g : Nat) : Nat :=
  packLE g g g 255

/-- A `cv::Exception` thrown by a library stage. -/
inductive CvError : Type
  | badInput : CvError
deriving Repr, DecidableEq

/-- The external image-processing stages invoked by the bridge, as an
abstract record of deterministic functions: frames and single-channel
mats are byte lists, BGR mats are lists of channel triples.  Each stage
may raise a `cv::Exception` (`Except.error`). -/
structure CvLib where
  cvtColorYUV2BGR_NV21 : List Nat → Nat → Nat → Except CvError (List (Nat × Nat × Nat))
  cvtColorBGR2GRAY : List (Nat × Nat × Nat) → Except CvError (List Nat)
  gaussianBlur : Nat → Nat → Rat → List Nat → Except CvError (List Nat)
  canny : Nat → Nat → List Nat → Except CvError (List Nat)

/-- The four cv calls of the source, in source order with the source's
parameter values: NV21→BGR, BGR→GRAY, GaussianBlur with kernel 5×5 and
sigma 1.5, Canny with thresholds 50 and 150. -/
def edgeStages (lib : CvLib) (yuvBytes : List Nat) (width height : Nat) :
    Except CvError (List Nat) :=
  (lib.cvtColorYUV2BGR_NV21 yuvBytes width height).bind fun bgrMat =>
  (lib.cvtColorBGR2GRAY bgrMat).bind fun grayMat =>
  (lib.gaussianBlur 5 5 (3 / 2 : Rat) grayMat).bind fun blurredMat =>
  lib.canny 50 150 blurredMat

/-- The per-pixel classification of the source's output loop:
`int pixel = rgbaData[i]; if (pixel > 0) out = 0xFFFFFFFF; else out = 0xFF000000;`. -/
def binarize (w : Nat) : Nat :=
  if 0 < toSigned32 w then 0xFFFFFFFF else 0xFF000000

/-- The output loop `for (i = 0; i < pixelCount; i++) outPixels[i] = ...`:
positions below `pixelCount` receive the binarized rgba word, positions
beyond it keep their previous contents.  (In the source a `pixelCount`
larger than either buffer is an out-of-bounds access, i.e. undefined
behaviour; the spec's length contract excludes it, and the claims that
use this model carry the corresponding length hypotheses.) -/
def writeOutput (rgbaData : List Nat) (pixelCount : Nat) (outPixels : List Nat) :
    List Nat :=
  (List.range outPixels.length).map fun i =>
    if i < pixelCount then binarize (rgbaData.getD i 0) else outPixels.getD i 0

/-- JNI release mode: `0` commits the element copy back to the Java
array, `JNI_ABORT` discards it. -/
inductive ReleaseMode : Type
  | commit : ReleaseMode
  | abort : ReleaseMode
deriving Repr, DecidableEq

/-- `Release{Byte,Int}ArrayElements`: the Java-side array after release,
given its contents at acquisition time and the (possibly modified)
element view. -/
def releaseElems (arr view : List Nat) : ReleaseMode → List Nat
  | ReleaseMode.commit => view
  | ReleaseMode.abort => arr

/-- `Get{Byte,Int}ArrayElements`: yields a view of the array's elements,
or `none` when the VM cannot provide one. -/
def getArrayElems (avail : Bool) (arr : List Nat) : Option (List Nat) :=
  if avail then some arr else none

/-- Everything observable about one call to the bridge: the returned
status, the two Java-side arrays after the call, which element views
were acquired and which of those were released before returning, and
whether any image-processing stage was invoked. -/
structure CallResult where
  status : Int
  yuvArr : List Nat
  outArr : List Nat
  yuvAcquired : Bool
  outAcquired : Bool
  yuvReleased : Bool
  outReleased : Bool
  processingRan : Bool
deriving Repr, DecidableEq

/-- Shallow embedding of
`Java_com_openedge_processing_EdgeDetection_nativeProcessFrame`.
`frameAvail` / `outAvail` model whether `GetByteArrayElements` /
`GetIntArrayElements` return a non-null pointer.  Control flow follows
the source: acquire both views; on a null view release whatever was
acquired with `JNI_ABORT` and return `-1`; run the cv pipeline — if it
throws, the `catch` block returns `-1` *without releasing either view*
(the source's catch blocks contain only a log call and `return -1`);
otherwise binarize into the output view, release the input view with
`JNI_ABORT` and the output view with mode `0`, and return `0`. -/
def nativeProcessFrame (lib : CvLib) (frameAvail outAvail : Bool)
    (yuvData : List Nat) (width height : Nat) (outputBuffer : List Nat) :
    CallResult :=
  match getArrayElems frameAvail yuvData, getArrayElems outAvail outputBuffer with
  | some yuvBytes, some outPixels =>
      match edgeStages lib yuvBytes width height with
      | Except.error _ =>
          { status := -1
            yuvArr := yuvData
            outArr := outputBuffer
            yuvAcquired := true
            outAcquired := true
            yuvReleased := false
            outReleased := false
            processingRan := true }
      | Except.ok edgesMat =>
          let rgbaData := edgesMat.map gray2rgbaWord
          let pixelCount := width * height
          let outPixels' := writeOutput rgbaData pixelCount outPixels
          { status := 0
            yuvArr := releaseElems yuvData yuvBytes ReleaseMode.abort
            outArr := releaseElems outputBuffer outPixels' ReleaseMode.commit
            yuvAcquired := true
            outAcquired := true
            yuvReleased := true
            outReleased := true
            processingRan := true }
  | _, _ =>
      { status := -1
        yuvArr := yuvData
        outArr := outputBuffer
        yuvAcquired := frameAvail
        outAcquired := outAvail
        yuvReleased := frameAvail
        outReleased := outAvail
        processingRan := false }

/-- Modelled from the spec: the OpenCV stage internals (colourimetry of
the NV21 and grayscale conversions, the blur and Canny numerics) are
external library code absent from this repository and explicitly out of
scope (spec §1, §4.1).  Only two behaviours of the library matter to the
claims and are taken from the spec: stages succeed and are deterministic
on valid positive dimensions (spec §8 first property), and degenerate
dimensions (`width = 0` or `height = 0`) make the first conversion raise
(spec §8 boundary, §7 ProcessingFailure).  The stage bodies here are
otherwise simple stand-ins: grayscale is read off the luma plane, blur
is the identity, Canny thresholds against the high threshold. -/
def specLib : CvLib where
  cvtColorYUV2BGR_NV21 := fun yuv w h =>
    if w = 0 ∨ h = 0 then Except.error CvError.badInput
    else Except.ok ((List.range (w * h)).map fun i =>
      (yuv.getD i 0, yuv.getD i 0, yuv.getD i 0))
  cvtColorBGR2GRAY := fun bgr => Except.ok (bgr.map fun p => p.2.2)
  gaussianBlur := fun _ _ _ xs => Except.ok xs
  canny := fun _ high xs => Except.ok (xs.map fun v => if high ≤ v then 255 else 0)

/-- The synthetic 4×4 scenario frame of spec §8: a 16-byte luma plane
that is 0 on the left two columns and 255 on the right two, followed by
8 neutral chroma bytes (128). -/
def stepFrame : List Nat :=
  [0, 0, 255, 255, 0, 0, 255, 255, 0, 0, 255, 255, 0, 0, 255, 255,
   128, 128, 128, 128, 128, 128, 128, 128]

/-! ### Basic facts about the binarization -/

/-- Every word produced by `COLOR_GRAY2RGBA` has its alpha byte equal to
255, hence its sign bit set: read as a signed `int` it is negative, so
the source's `pixel > 0` test classifies it as background whatever the
gray value was. -/
theorem binarize_gray2rgbaWord (g : Nat) :
    binarize (gray2rgbaWord g) = 0xFF000000 := by
  have hr : g % 256 < 256 := Nat.mod_lt _ (by norm_num)
  unfold binarize gray2rgbaWord packLE toSigned32
  have h31 : ¬ (g % 256 + g % 256 * 2 ^ 8 + g % 256 * 2 ^ 16 + 255 % 256 * 2 ^ 24
      < 2 ^ 31) := by omega
  rw [if_neg h31, if_neg]
  have hub : g % 256 + g % 256 * 2 ^ 8 + g % 256 * 2 ^ 16 + 255 % 256 * 2 ^ 24
      < 2 ^ 32 := by omega
  push_cast
  omega

/-- Every pixel the loop reads from the rgba image binarizes to opaque
black, including the out-of-range default. -/
theorem binarize_rgbaAt (l : List Nat) (i : Nat) :
    binarize ((l.map gray2rgbaWord).getD i 0) = 0xFF000000 := by
  induction l generalizing i with
  | nil => cases i <;> simp [List.getD] <;> decide
  | cons a t ih =>
      cases i with
      | zero => simpa using binarize_gray2rgbaWord a
      | succ j => simpa using ih j

/-- When the output buffer is no longer than `pixelCount`, every element
written back by the loop is opaque black. -/
theorem writeOutput_mem_black (edges out : List Nat) (c : Nat)
    (hc : out.length ≤ c) (p : Nat)
    (hp : p ∈ writeOutput (edges.map gray2rgbaWord) c out) : p = 0xFF000000 := by
  simp only [writeOutput, List.mem_map, List.mem_range] at hp
  obtain ⟨i, hi, hpe⟩ := hp
  rw [if_pos (lt_of_lt_of_le hi hc)] at hpe
  rw [← hpe]
  exact binarize_rgbaAt edges i

/-! ### Reduction of `nativeProcessFrame` along each control-flow path -/

/-- Success path: both views acquired, no stage raised. -/
theorem nativeProcessFrame_ok (lib : CvLib) (yuv out : List Nat) (w h : Nat)
    (edges : List Nat) (hE : edgeStages lib yuv w h = Except.ok edges) :
    nativeProcessFrame lib true true yuv w h out =
      { status := 0
        yuvArr := yuv
        outArr := writeOutput (edges.map gray2rgbaWord) (w * h) out
        yuvAcquired := true
        outAcquired := true
        yuvReleased := true
        outReleased := true
        processingRan := true } := by
  simp [nativeProcessFrame, getArrayElems, hE, releaseElems]

/-- Exception path: both views acquired, a stage raised, the catch block
returns `-1` without releasing either view. -/
theorem nativeProcessFrame_exn (lib : CvLib) (yuv out : List Nat) (w h : Nat)
    (e : CvError) (hE : edgeStages lib yuv w h = Except.error e) :
    nativeProcessFrame lib true true yuv w h out =
      { status := -1
        yuvArr := yuv
        outArr := out
        yuvAcquired := true
        outAcquired := true
        yuvReleased := false
        outReleased := false
        processingRan := true } := by
  simp [nativeProcessFrame, getArrayElems, hE]

/-- Null-view path: at least one of the two element views is
unavailable; the call aborts whatever it acquired and returns `-1`
before any cv call. -/
theorem nativeProcessFrame_null (lib : CvLib) (fa oa : Bool)
    (yuv out : List Nat) (w h : Nat) (hfo : fa = false ∨ oa = false) :
    nativeProcessFrame lib fa oa yuv w h out =
      { status := -1
        yuvArr := yuv
        outArr := out
        yuvAcquired := fa
        outAcquired := oa
        yuvReleased := fa
        outReleased := oa
        processingRan := false } := by
  rcases hfo with h | h <;> subst h
  · cases oa <;> simp [nativeProcessFrame, getArrayElems]
  · cases fa <;> simp [nativeProcessFrame, getArrayElems]

/-- `specLib`'s composed pipeline on positive dimensions: read the luma
plane, threshold against the high threshold. -/
theorem edgeStages_specLib (yuv : List Nat) (w h : Nat)
    (hw : w ≠ 0) (hh : h ≠ 0) :
    edgeStages specLib yuv w h =
      Except.ok ((List.range (w * h)).map fun i =>
        if 150 ≤ yuv.getD i 0 then 255 else 0) := by
  simp [edgeStages, specLib, hw, hh, Except.bind, List.map_map, Function.comp]

/-- `specLib`'s first conversion raises on degenerate dimensions, and
the exception propagates through the stage composition. -/
theorem edgeStages_specLib_err (yuv : List Nat) (w h : Nat)
    (hwh : w = 0 ∨ h = 0) :
    edgeStages specLib yuv w h = Except.error CvError.badInput := by
  simp [edgeStages, specLib, hwh, Except.bind]

/-! ### Claims -/

/-- C1: the claimed binarization contract fails on the code.  At a
concrete successful call (1×1 frame with luma 255) the detector output
at position 0 is 255 — non-zero, so the claim demands `0xFFFFFFFF` — yet
the call writes `0xFF000000`: the rgba word of an edge pixel has alpha
byte 255, so read as a signed `int` it is negative and the source's
`pixel > 0` test never fires.  This contradicts the source's own
comments (`// Edge pixel - make white`). -/
theorem C1_edge_pixel_written_black :
    edgeStages specLib [255] 1 1 = Except.ok [255] ∧
    (nativeProcessFrame specLib true true [255] 1 1 [0]).status = 0 ∧
    (nativeProcessFrame specLib true true [255] 1 1 [0]).outArr = [0xFF000000] := by
  refine ⟨rfl, by decide, by decide⟩

/-- C2: the 4×4 step-frame scenario fails on the code.  The call
succeeds and the detector reports edges at the step columns (output 255
there), but the written buffer is entirely `0xFF000000`: for the same
reason as in C1 no input can ever produce a `0xFFFFFFFF` pixel. -/
theorem C2_step_frame_all_background :
    edgeStages specLib stepFrame 4 4 =
      Except.ok [0, 0, 255, 255, 0, 0, 255, 255, 0, 0, 255, 255, 0, 0, 255, 255] ∧
    (nativeProcessFrame specLib true true stepFrame 4 4 (List.replicate 16 0)).status = 0 ∧
    (nativeProcessFrame specLib true true stepFrame 4 4 (List.replicate 16 0)).outArr =
      List.replicate 16 0xFF000000 ∧
    ¬ 0xFFFFFFFF ∈
      (nativeProcessFrame specLib true true stepFrame 4 4 (List.replicate 16 0)).outArr := by
  refine ⟨rfl, by decide, by decide, by decide⟩

/-- C3: on every input of the right shape (positive dimensions, output
length `w*h`, frame length `w*h*3/2`) the call returns status 0 and
every output pixel is one of the two sentinels `0xFFFFFFFF` /
`0xFF000000`. -/
theorem C3_valid_inputs_succeed_two_valued (yuv out : List Nat) (w h : Nat)
    (hw : 0 < w) (hh : 0 < h) (hout : out.length = w * h)
    (_hyuv : yuv.length = w * h * 3 / 2) :
    (nativeProcessFrame specLib true true yuv w h out).status = 0 ∧
    ∀ p ∈ (nativeProcessFrame specLib true true yuv w h out).outArr,
      p = 0xFFFFFFFF ∨ p = 0xFF000000 := by
  rw [nativeProcessFrame_ok specLib yuv out w h _
    (edgeStages_specLib yuv w h hw.ne' hh.ne')]
  refine ⟨rfl, fun p hp => Or.inr ?_⟩
  exact writeOutput_mem_black _ out (w * h) (le_of_eq hout) p hp

/-- Witness for C3 at `w = h = 1`, `yuv = [0]`, `out = [0]`. -/
theorem C3_witness :
    (0 < 1 ∧ ([0] : List Nat).length = 1 * 1 ∧
      ([0] : List Nat).length = 1 * 1 * 3 / 2) ∧
    (nativeProcessFrame specLib true true [0] 1 1 [0]).status = 0 ∧
    ∀ p ∈ (nativeProcessFrame specLib true true [0] 1 1 [0]).outArr,
      p = 0xFFFFFFFF ∨ p = 0xFF000000 :=
  ⟨⟨by decide, by decide, by decide⟩,
   C3_valid_inputs_succeed_two_valued [0] [0] 1 1 (by decide) (by decide)
     (by decide) (by decide)⟩

/-- C4: a call with `width = 0` or `height = 0` returns `-1` on every
availability of the two buffer views: either a view is unavailable (the
null check fires), or the first conversion raises and the catch block
maps the exception to `-1`.  The model is total, so the call returns
rather than crashing. -/
theorem C4_degenerate_dims_return_failure (fa oa : Bool) (yuv out : List Nat)
    (w h : Nat) (hwh : w = 0 ∨ h = 0) :
    (nativeProcessFrame specLib fa oa yuv w h out).status = -1 := by
  cases fa with
  | false => rw [nativeProcessFrame_null specLib false oa yuv out w h (Or.inl rfl)]
  | true =>
    cases oa with
    | false => rw [nativeProcessFrame_null specLib true false yuv out w h (Or.inr rfl)]
    | true =>
      rw [nativeProcessFrame_exn specLib yuv out w h CvError.badInput
        (edgeStages_specLib_err yuv w h hwh)]

/-- Witness for C4 at `w = 0`, `h = 4`, both views available. -/
theorem C4_witness :
    ((0 : Nat) = 0 ∨ (4 : Nat) = 0) ∧
    (nativeProcessFrame specLib true true [] 0 4 []).status = -1 :=
  ⟨Or.inl rfl, C4_degenerate_dims_return_failure true true [] [] 0 4 (Or.inl rfl)⟩

/-- C5: the release-on-every-path claim fails on the code.  At
`width = height = 0` with both views available, the pipeline raises
after both `Get...ArrayElements` calls succeeded, and the catch block
returns `-1` without calling either `Release...ArrayElements`: both
acquired views leak on this exit path. -/
theorem C5_exception_path_leaks_views :
    (nativeProcessFrame specLib true true [0] 0 0 [0]).status = -1 ∧
    (nativeProcessFrame specLib true true [0] 0 0 [0]).yuvAcquired = true ∧
    (nativeProcessFrame specLib true true [0] 0 0 [0]).outAcquired = true ∧
    (nativeProcessFrame specLib true true [0] 0 0 [0]).yuvReleased = false ∧
    (nativeProcessFrame specLib true true [0] 0 0 [0]).outReleased = false := by
  refine ⟨by decide, by decide, by decide, by decide, by decide⟩

/-- C6: when either element view is unavailable the call returns `-1`
and no image-processing stage runs — for every library behaviour. -/
theorem C6_unavailable_buffers_fail_before_processing (lib : CvLib)
    (fa oa : Bool) (yuv out : List Nat) (w h : Nat)
    (hfo : fa = false ∨ oa = false) :
    (nativeProcessFrame lib fa oa yuv w h out).status = -1 ∧
    (nativeProcessFrame lib fa oa yuv w h out).processingRan = false := by
  rw [nativeProcessFrame_null lib fa oa yuv out w h hfo]
  exact ⟨rfl, rfl⟩

/-- Witness for C6 with the frame view unavailable. -/
theorem C6_witness :
    ((false : Bool) = false ∨ (true : Bool) = false) ∧
    ((nativeProcessFrame specLib false true [0] 1 1 [0]).status = -1 ∧
     (nativeProcessFrame specLib false true [0] 1 1 [0]).processingRan = false) :=
  ⟨Or.inl rfl,
   C6_unavailable_buffers_fail_before_processing specLib false true [0] [0] 1 1
     (Or.inl rfl)⟩

/-- C7: on every path — success, null view, exception — the input frame
array is unchanged after the call (the source never writes through the
frame view and releases it with `JNI_ABORT`); only the output array is
ever mutated.  Holds for every library behaviour. -/
theorem C7_input_frame_unmodified (lib : CvLib) (fa oa : Bool)
    (yuv out : List Nat) (w h : Nat) :
    (nativeProcessFrame lib fa oa yuv w h out).yuvArr = yuv := by
  cases fa with
  | false => rw [nativeProcessFrame_null lib false oa yuv out w h (Or.inl rfl)]
  | true =>
    cases oa with
    | false => rw [nativeProcessFrame_null lib true false yuv out w h (Or.inr rfl)]
    | true =>
      cases hE : edgeStages lib yuv w h with
      | error e => rw [nativeProcessFrame_exn lib yuv out w h e hE]
      | ok edges => rw [nativeProcessFrame_ok lib yuv out w h edges hE]

/-- C8: on the success path the output is determined by exactly the
four-stage composition NV21→BGR, then BGR→GRAY, then GaussianBlur with
kernel 5×5 and sigma 3/2, then Canny with thresholds 50 and 150 — in
that order, with those parameters — followed only by the binarizing
write loop.  Holds for every library behaviour. -/
theorem C8_success_output_is_exact_pipeline (lib : CvLib) (yuv out : List Nat)
    (w h : Nat) (edges : List Nat)
    (hE : (lib.cvtColorYUV2BGR_NV21 yuv w h).bind
        (fun bgrMat => (lib.cvtColorBGR2GRAY bgrMat).bind
          (fun grayMat => (lib.gaussianBlur 5 5 (3 / 2 : Rat) grayMat).bind
            (fun blurredMat => lib.canny 50 150 blurredMat))) = Except.ok edges) :
    (nativeProcessFrame lib true true yuv w h out).status = 0 ∧
    (nativeProcessFrame lib true true yuv w h out).outArr =
      writeOutput (edges.map gray2rgbaWord) (w * h) out := by
  rw [nativeProcessFrame_ok lib yuv out w h edges hE]
  exact ⟨rfl, rfl⟩

/-- Witness for C8 at `specLib`, a 1×1 zero frame. -/
theorem C8_witness :
    ((specLib.cvtColorYUV2BGR_NV21 [0] 1 1).bind
        (fun bgrMat => (specLib.cvtColorBGR2GRAY bgrMat).bind
          (fun grayMat => (specLib.gaussianBlur 5 5 (3 / 2 : Rat) grayMat).bind
            (fun blurredMat => specLib.canny 50 150 blurredMat))) =
      Except.ok [0]) ∧
    ((nativeProcessFrame specLib true true [0] 1 1 [0]).status = 0 ∧
     (nativeProcessFrame specLib true true [0] 1 1 [0]).outArr =
       writeOutput (([0] : List Nat).map gray2rgbaWord) (1 * 1) [0]) :=
  ⟨rfl, C8_success_output_is_exact_pipeline specLib [0] [0] 1 1 [0] rfl⟩

/-- C9: the call is deterministic — with the same library, the same
view availability, byte-identical frames and identical fresh output
buffers, two calls return the same status and leave bit-identical
output arrays. -/
theorem C9_deterministic (lib : CvLib) (fa oa : Bool) (yuv1 yuv2 : List Nat)
    (w h : Nat) (out1 out2 : List Nat) (hy : yuv1 = yuv2) (ho : out1 = out2) :
    (nativeProcessFrame lib fa oa yuv1 w h out1).status =
      (nativeProcessFrame lib fa oa yuv2 w h out2).status ∧
    (nativeProcessFrame lib fa oa yuv1 w h out1).outArr =
      (nativeProcessFrame lib fa oa yuv2 w h out2).outArr := by
  subst hy; subst ho; exact ⟨rfl, rfl⟩

/-- Witness for C9 at two syntactically equal concrete inputs. -/
theorem C9_witness :
    (([5, 6] : List Nat) = [5, 6] ∧ ([0] : List Nat) = [0]) ∧
    ((nativeProcessFrame specLib true true [5, 6] 1 1 [0]).status =
       (nativeProcessFrame specLib true true [5, 6] 1 1 [0]).status ∧
     (nativeProcessFrame specLib true true [5, 6] 1 1 [0]).outArr =
       (nativeProcessFrame specLib true true [5, 6] 1 1 [0]).outArr) :=
  ⟨⟨rfl, rfl⟩,
   C9_deterministic specLib true true [5, 6] [5, 6] 1 1 [0] [0] rfl rfl⟩

/-- C10: on the input-unavailable branch the call returns `-1` and the
caller's output array is unchanged — the views are released with
`JNI_ABORT`, so nothing is committed back.  Holds for every library
behaviour. -/
theorem C10_input_error_leaves_output_unchanged (lib : CvLib) (fa oa : Bool)
    (yuv out : List Nat) (w h : Nat) (hfo : fa = false ∨ oa = false) :
    (nativeProcessFrame lib fa oa yuv w h out).status = -1 ∧
    (nativeProcessFrame lib fa oa yuv w h out).outArr = out := by
  rw [nativeProcessFrame_null lib fa oa yuv out w h hfo]
  exact ⟨rfl, rfl⟩

/-- Witness for C10 with the output view unavailable. -/
theorem C10_witness :
    ((true : Bool) = false ∨ (false : Bool) = false) ∧
    ((nativeProcessFrame specLib true false [1, 2, 3] 1 2 [9, 9]).status = -1 ∧
     (nativeProcessFrame specLib true false [1, 2, 3] 1 2 [9, 9]).outArr = [9, 9]) :=
  ⟨Or.inr rfl,
   C10_input_error_leaves_output_unchanged specLib true false [1, 2, 3] [9, 9] 1 2
     (Or.inr rfl)⟩

end OpenEdge
